import Mathlib

set_option maxRecDepth 100000

/-!
Shallow embedding of the neonblog post store and markdown-rendering pipeline
(src/database.py, src/models.py, src/main.py).

The SQLite `posts` table is modelled as an explicit state: a list of rows plus
the AUTOINCREMENT counter and the list of column names.  Timestamps
(`CURRENT_TIMESTAMP`) are modelled as a `Nat` clock value passed explicitly to
every operation that the database would stamp.  All columns of this schema are
declared with `NOT NULL` or a non-null `DEFAULT`, and every writer in the code
binds a Python string to each text column, so text columns are modelled as
total `String`s (the `or ''` null-coalescing in `_row_to_post` is then the
identity).
-/

namespace NeonBlog

/-- A row of the `posts` table, with the columns declared by `CREATE TABLE`
in `init_db` (src/database.py lines 22-37). -/
structure Row where
  id : Nat
  title : String
  category : String
  color : String
  size : String
  excerpt : String
  content : String
  markdown_content : String
  media_files : String
  created_at : Nat
  updated_at : Nat
  read_time : String
deriving DecidableEq

/-- The `Post` dataclass of src/models.py (lines 7-19).  Its fields are
exactly those listed there; note that the dataclass has no `updated_at`
field. -/
structure Post where
  id : Nat
  title : String
  category : String
  color : String
  size : String
  excerpt : String
  content : String
  media_files : String
  created_at : Nat
  read_time : String
  markdown_content : String := ""
deriving DecidableEq

/-- The state of the store: the `posts` table (column list, rows) together
with the AUTOINCREMENT counter for `id` (SQLite starts at 1 and never reuses
an id of a deleted row). -/
structure DB where
  cols : List String
  rows : List Row
  nextId : Nat
deriving DecidableEq

/-- Python `str.split()` with no argument: split at every whitespace
character, dropping empty pieces (so runs of whitespace count once and
leading/trailing whitespace contributes no word). -/
def pySplitWhitespace (s : String) : List String :=
  ((s.data.splitOnP (fun c => c.isWhitespace)).map String.mk).filter (fun t => t ≠ "")

/-- Python `str.split(',')`: split at every comma, keeping empty pieces. -/
def pySplitComma (s : String) : List String :=
  (s.data.splitOnP (fun c => c == ',')).map String.mk

/-- Python `str.upper()`: character-wise upper-casing (`Char.toUpper` agrees
with Python on the ASCII category strings this application uses). -/
def pyUpper (s : String) : String :=
  String.mk (s.data.map Char.toUpper)

/-- Python `str.strip()`: drop whitespace characters from both ends. -/
def pyStrip (s : String) : String :=
  String.mk ((s.data.dropWhile Char.isWhitespace).rdropWhile Char.isWhitespace)

/-- `_row_to_post` (src/database.py lines 163-184): convert a table row to a
`Post` value.  In this model every column is a total string, so the
`or ''` fallbacks of the Python code are the identity, and the
`markdown_content` column always exists. -/
def row_to_post (row : Row) : Post :=
  { id := row.id
    title := row.title
    category := row.category
    color := row.color
    size := row.size
    excerpt := row.excerpt
    content := row.content
    markdown_content := row.markdown_content
    media_files := row.media_files
    created_at := row.created_at
    read_time := row.read_time }

/-- `get_post_by_id` (src/database.py lines 197-207):
`SELECT * FROM posts WHERE id = ?` then `fetchone()`; `None` when no row
matches. -/
def get_post_by_id (db : DB) (post_id : Nat) : Option Post :=
  (db.rows.find? (fun r => r.id == post_id)).map row_to_post

/-- `get_all_posts` (src/database.py lines 187-194):
`SELECT * FROM posts ORDER BY created_at DESC`. -/
def get_all_posts (db : DB) : List Post :=
  (db.rows.mergeSort (fun a b => b.created_at ≤ a.created_at)).map row_to_post

/-- `get_latest_post` (src/database.py lines 210-220):
`SELECT * FROM posts ORDER BY created_at DESC LIMIT 1`. -/
def get_latest_post (db : DB) : Option Post :=
  (db.rows.mergeSort (fun a b => b.created_at ≤ a.created_at)).head?.map row_to_post

/-- `create_post` (src/database.py lines 223-253).  Computes `read_time`
from the whitespace word count of `content`, upper-cases the category, joins
`media_files` with commas, inserts a row (fresh AUTOINCREMENT id, both
timestamps defaulted to the current time), and returns
`get_post_by_id(lastrowid)` on the new state. -/
def create_post (db : DB) (now : Nat)
    (title category color size excerpt content : String)
    (media_files : List String) (markdown_content : String := "") :
    DB × Option Post :=
  let word_count := (pySplitWhitespace content).length
  let read_time := toString (max 1 (word_count / 200)) ++ " min read"
  let media_str := String.intercalate "," media_files
  let row : Row :=
    { id := db.nextId
      title := title
      category := pyUpper category
      color := color
      size := size
      excerpt := excerpt
      content := content
      markdown_content := markdown_content
      media_files := media_str
      created_at := now
      updated_at := now
      read_time := read_time }
  let db' : DB := { db with rows := db.rows ++ [row], nextId := db.nextId + 1 }
  (db', get_post_by_id db' db.nextId)

/-- `update_post` (src/database.py lines 256-296).  Recomputes `read_time`,
re-normalizes the category, replaces every mutable field of the rows whose
`id` matches (`UPDATE ... WHERE id = ?`), stamps `updated_at` with the
current time, and returns `get_post_by_id(post_id)` on the new state. -/
def update_post (db : DB) (now : Nat) (post_id : Nat)
    (title category color size excerpt content : String)
    (media_files : List String) (markdown_content : String := "") :
    DB × Option Post :=
  let word_count := (pySplitWhitespace content).length
  let read_time := toString (max 1 (word_count / 200)) ++ " min read"
  let media_str := String.intercalate "," media_files
  let rows' := db.rows.map (fun r =>
    if r.id == post_id then
      { r with
        title := title
        category := pyUpper category
        color := color
        size := size
        excerpt := excerpt
        content := content
        markdown_content := markdown_content
        media_files := media_str
        read_time := read_time
        updated_at := now }
    else r)
  let db' : DB := { db with rows := rows' }
  (db', get_post_by_id db' post_id)

/-- `delete_post` (src/database.py lines 299-307):
`DELETE FROM posts WHERE id = ?`; returns `cursor.rowcount > 0`, i.e. whether
at least one row was removed. -/
def delete_post (db : DB) (post_id : Nat) : DB × Bool :=
  let rows' := db.rows.filter (fun r => !(r.id == post_id))
  ({ db with rows := rows' }, decide (rows'.length < db.rows.length))

/-- `Post.get_media_list` (src/models.py lines 21-25): the empty string gives
the empty list; otherwise split on commas, strip each piece, and keep only
pieces that are non-empty after stripping. -/
def Post.get_media_list (p : Post) : List String :=
  if p.media_files = "" then []
  else ((pySplitComma p.media_files).map pyStrip).filter (fun t => t ≠ "")

/-- `render_markdown` (src/main.py lines 25-29).  `if not text` is Python's
falsiness test on a string, which holds exactly for the empty string; any
other input is handed to `markdown2.markdown(text, extras=MARKDOWN_EXTRAS)`.
The markdown2 library is external to this repository, so it is abstracted as
the `convert` parameter. -/
def render_markdown (convert : String → String) (text : String) : String :=
  if text = "" then "" else convert text

/-- One tuple of `sample_posts` in `_insert_sample_posts`
(src/database.py lines 62-154): the values bound to the columns of the seed
`INSERT` statement, in its column order. -/
structure SampleRow where
  title : String
  category : String
  color : String
  size : String
  excerpt : String
  content : String
  markdown_content : String
  media_files : String
  read_time : String
deriving DecidableEq

/-- Sample post 1 of `_insert_sample_posts` (src/database.py). -/
def sample_post_1 : SampleRow :=
  { title := "The Future of Web Development: HTMX and Hypermedia"
    category := "TECHNOLOGY"
    color := "neon-pink"
    size := "bento-large"
    excerpt := "Exploring how HTMX is changing the way we think about building interactive web applications..."
    content := "<p>In recent years, the web development landscape has been dominated by JavaScript frameworks like React, Vue, and Angular. But a quiet revolution is happening, led by tools like HTMX that embrace the original hypermedia model of the web.</p>\n            <p>HTMX allows you to access modern browser features directly from HTML, rather than using JavaScript. This means you can create dynamic, interactive web applications with significantly less code and complexity.</p>\n            <h2>Why HTMX?</h2>\n            <p>The main advantage of HTMX is simplicity. Instead of managing complex client-side state, you let the server handle the logic and return HTML fragments that HTMX swaps into your page.</p>\n            <p>This approach has several benefits:</p>\n            <ul>\n                <li>Smaller bundle sizes</li>\n                <li>Better SEO out of the box</li>\n                <li>Simpler mental model</li>\n                <li>Works with any backend language</li>\n            </ul>"
    markdown_content := "# The Future of Web Development: HTMX and Hypermedia\n\nIn recent years, the web development landscape has been dominated by JavaScript frameworks like React, Vue, and Angular. But a quiet revolution is happening, led by tools like HTMX that embrace the original hypermedia model of the web.\n\nHTMX allows you to access modern browser features directly from HTML, rather than using JavaScript. This means you can create dynamic, interactive web applications with significantly less code and complexity.\n\n## Why HTMX?\n\nThe main advantage of HTMX is simplicity. Instead of managing complex client-side state, you let the server handle the logic and return HTML fragments that HTMX swaps into your page.\n\nThis approach has several benefits:\n\n- Smaller bundle sizes\n- Better SEO out of the box\n- Simpler mental model\n- Works with any backend language"
    media_files := ""
    read_time := "5 min read" }

/-- Sample post 2 of `_insert_sample_posts` (src/database.py). -/
def sample_post_2 : SampleRow :=
  { title := "Neon Aesthetics in Modern UI"
    category := "DESIGN"
    color := "neon-cyan"
    size := "bento-medium"
    excerpt := "Why glowing colors are making a comeback..."
    content := "<p>Neon colors have made a dramatic comeback in web design, bringing energy and personality to digital interfaces.</p>\n            <p>The cyberpunk aesthetic, popularized by movies and games, has influenced modern UI design trends.</p>\n            <h2>Key Principles</h2>\n            <ul>\n                <li>Use dark backgrounds to make colors pop</li>\n                <li>Add subtle glow effects with box-shadow</li>\n                <li>Limit your neon palette to maintain hierarchy</li>\n            </ul>"
    markdown_content := "# Neon Aesthetics in Modern UI\n\nNeon colors have made a dramatic comeback in web design, bringing energy and personality to digital interfaces.\n\nThe cyberpunk aesthetic, popularized by movies and games, has influenced modern UI design trends.\n\n## Key Principles\n\n- Use dark backgrounds to make colors pop\n- Add subtle glow effects with box-shadow\n- Limit your neon palette to maintain hierarchy"
    media_files := ""
    read_time := "3 min read" }

/-- Sample post 3 of `_insert_sample_posts` (src/database.py). -/
def sample_post_3 : SampleRow :=
  { title := "Quick CSS Tricks"
    category := "TIPS"
    color := "neon-purple"
    size := "bento-small"
    excerpt := ""
    content := "<p>Here are some useful CSS tricks:</p>\n            <h3>Center anything with Flexbox</h3>\n            <pre><code>display: flex;\nalign-items: center;\njustify-content: center;</code></pre>"
    markdown_content := "# Quick CSS Tricks\n\nHere are some useful CSS tricks:\n\n### Center anything with Flexbox\n\n```css\ndisplay: flex;\nalign-items: center;\njustify-content: center;\n```"
    media_files := ""
    read_time := "2 min read" }

/-- The `sample_posts` list of `_insert_sample_posts` (src/database.py). -/
def sample_posts : List SampleRow :=
  [sample_post_1, sample_post_2, sample_post_3]

/-- One iteration of the seed loop in `_insert_sample_posts`: the `INSERT`
gives the row a fresh AUTOINCREMENT id and defaults both timestamps to the
current time. -/
def insert_sample_row (db : DB) (now : Nat) (s : SampleRow) : DB :=
  { db with
    rows := db.rows ++
      [{ id := db.nextId
         title := s.title
         category := s.category
         color := s.color
         size := s.size
         excerpt := s.excerpt
         content := s.content
         markdown_content := s.markdown_content
         media_files := s.media_files
         created_at := now
         updated_at := now
         read_time := s.read_time }]
    nextId := db.nextId + 1 }

/-- `_insert_sample_posts` (src/database.py lines 62-160): insert the three
demonstration posts in order. -/
def insert_sample_posts (db : DB) (now : Nat) : DB :=
  sample_posts.foldl (fun d s => insert_sample_row d now s) db

/-- The columns declared by the `CREATE TABLE IF NOT EXISTS posts` statement
in `init_db` (src/database.py lines 22-37). -/
def base_columns : List String :=
  ["id", "title", "category", "color", "size", "excerpt", "content",
   "markdown_content", "media_files", "created_at", "updated_at", "read_time"]

/-- `CREATE TABLE IF NOT EXISTS`: an absent table is created empty with the
declared columns; an existing table is left alone. -/
def create_table_if_not_exists (db? : Option DB) : DB :=
  match db? with
  | some db => db
  | none => { cols := base_columns, rows := [], nextId := 1 }

/-- One `try: ALTER TABLE posts ADD COLUMN ... except OperationalError: pass`
migration step of `init_db`: adding a column that already exists raises
`sqlite3.OperationalError`, which is swallowed, so the step is a no-op in
that case. -/
def add_column_if_missing (db : DB) (c : String) : DB :=
  if c ∈ db.cols then db else { db with cols := db.cols ++ [c] }

/-- `init_db` (src/database.py lines 17-59): ensure the table exists, run the
two additive column migrations, then seed the sample posts when
`SELECT COUNT(*) FROM posts` returns 0. -/
def init_db (db? : Option DB) (now : Nat) : DB :=
  let db0 := create_table_if_not_exists db?
  let db1 := add_column_if_missing db0 "markdown_content"
  let db2 := add_column_if_missing db1 "updated_at"
  if db2.rows.length == 0 then insert_sample_posts db2 now else db2

/-! ## Theorems -/

/-- In a store whose row ids all lie below `nextId` (the AUTOINCREMENT
invariant SQLite maintains), searching the existing rows for `nextId` finds
nothing. -/
lemma find?_nextId_none (db : DB) (h : ∀ r ∈ db.rows, r.id < db.nextId) :
    db.rows.find? (fun r => r.id == db.nextId) = none := by
  rw [List.find?_eq_none]
  intro r hr
  simp only [beq_iff_eq]
  exact Nat.ne_of_lt (h r hr)

/-- C1: creating a post with given fields and then fetching by the returned
post id yields a post whose field values equal the inputs, up to the
transformations applied at creation time: category upper-cased, media files
joined into the comma-delimited string, and read_time derived from the word
count of the content. -/
theorem create_then_get_roundtrip (db : DB) (now : Nat)
    (title category color size excerpt content : String)
    (media_files : List String) (markdown_content : String)
    (hids : ∀ r ∈ db.rows, r.id < db.nextId) :
    ∃ p : Post,
      (create_post db now title category color size excerpt content media_files markdown_content).2 = some p ∧
      get_post_by_id (create_post db now title category color size excerpt content media_files markdown_content).1 p.id = some p ∧
      p.title = title ∧ p.category = pyUpper category ∧ p.color = color ∧
      p.size = size ∧ p.excerpt = excerpt ∧ p.content = content ∧
      p.media_files = String.intercalate "," media_files ∧
      p.markdown_content = markdown_content ∧
      p.read_time = toString (max 1 ((pySplitWhitespace content).length / 200)) ++ " min read" := by
  have hnone := find?_nextId_none db hids
  refine ⟨row_to_post
    { id := db.nextId
      title := title
      category := pyUpper category
      color := color
      size := size
      excerpt := excerpt
      content := content
      markdown_content := markdown_content
      media_files := String.intercalate "," media_files
      created_at := now
      updated_at := now
      read_time := toString (max 1 ((pySplitWhitespace content).length / 200)) ++ " min read" },
    ?_, ?_, rfl, rfl, rfl, rfl, rfl, rfl, rfl, rfl, rfl⟩
  all_goals
    simp only [create_post, get_post_by_id, row_to_post]
    rw [List.find?_append, hnone]
    simp [List.find?, row_to_post]

/-- Witness for `create_then_get_roundtrip` at a concrete empty store. -/
theorem create_then_get_roundtrip_witness :
    ∃ p : Post,
      (create_post { cols := base_columns, rows := [], nextId := 1 } 7 "T" "tips" "neon-pink" "bento-small" "E" "some words here" ["a.jpg", "b.mp4"] "# md").2 = some p ∧
      get_post_by_id (create_post { cols := base_columns, rows := [], nextId := 1 } 7 "T" "tips" "neon-pink" "bento-small" "E" "some words here" ["a.jpg", "b.mp4"] "# md").1 p.id = some p ∧
      p.title = "T" ∧ p.category = pyUpper "tips" ∧ p.color = "neon-pink" ∧
      p.size = "bento-small" ∧ p.excerpt = "E" ∧ p.content = "some words here" ∧
      p.media_files = String.intercalate "," ["a.jpg", "b.mp4"] ∧
      p.markdown_content = "# md" ∧
      p.read_time = toString (max 1 ((pySplitWhitespace "some words here").length / 200)) ++ " min read" :=
  create_then_get_roundtrip { cols := base_columns, rows := [], nextId := 1 } 7
    "T" "tips" "neon-pink" "bento-small" "E" "some words here" ["a.jpg", "b.mp4"] "# md"
    (by intro r hr; simp at hr)

/-- A string of `n` whitespace-separated words. -/
def words (n : Nat) : String := String.intercalate " " (List.replicate n "w")

/-- Any post returned by `update_post` carries the recomputed `read_time`
and the re-normalized (upper-cased) category: the returned post is read back
by id, and the row with the requested id is exactly the row the `UPDATE`
statement rewrote. -/
lemma update_post_returns_updated (db : DB) (now post_id : Nat)
    (title category color size excerpt content : String)
    (media_files : List String) (markdown_content : String)
    (p : Post)
    (hp : (update_post db now post_id title category color size excerpt content media_files markdown_content).2 = some p) :
    p.read_time = toString (max 1 ((pySplitWhitespace content).length / 200)) ++ " min read" ∧
    p.category = pyUpper category := by
  simp only [update_post, get_post_by_id] at hp
  rw [Option.map_eq_some'] at hp
  obtain ⟨r, hfind, hrp⟩ := hp
  have hpred := List.find?_some hfind
  have hmem := List.mem_of_find?_eq_some hfind
  rw [List.mem_map] at hmem
  obtain ⟨r0, hr0, hfr0⟩ := hmem
  by_cases h : (r0.id == post_id) = true
  · rw [if_pos h] at hfr0
    subst hfr0
    subst hrp
    exact ⟨rfl, rfl⟩
  · rw [if_neg h] at hfr0
    subst hfr0
    exact absurd hpred h

/-- C2: `create_post` and `update_post` store a `read_time` equal to
`max 1 (word_count / 200)` (floor division) followed by `" min read"`, where
`word_count` counts whitespace-separated words of the content; in particular
199 words give "1 min read", 200 words give "1 min read", and 401 words give
"2 min read". -/
theorem read_time_stored (db : DB) (now post_id : Nat)
    (title category color size excerpt content : String)
    (media_files : List String) (markdown_content : String) :
    ((create_post db now title category color size excerpt content media_files markdown_content).1.rows.getLast?).map Row.read_time
      = some (toString (max 1 ((pySplitWhitespace content).length / 200)) ++ " min read") ∧
    (∀ p : Post,
      (update_post db now post_id title category color size excerpt content media_files markdown_content).2 = some p →
      p.read_time = toString (max 1 ((pySplitWhitespace content).length / 200)) ++ " min read") ∧
    toString (max 1 ((pySplitWhitespace (words 199)).length / 200)) ++ " min read" = "1 min read" ∧
    toString (max 1 ((pySplitWhitespace (words 200)).length / 200)) ++ " min read" = "1 min read" ∧
    toString (max 1 ((pySplitWhitespace (words 401)).length / 200)) ++ " min read" = "2 min read" := by
  refine ⟨?_, ?_, by decide, by decide, by decide⟩
  · simp [create_post, List.getLast?_concat]
  · intro p hp
    exact (update_post_returns_updated db now post_id title category color size
      excerpt content media_files markdown_content p hp).1

/-- A one-row store used to witness the update clauses at concrete inputs. -/
def row_w : Row :=
  { id := 1
    title := "t"
    category := "C"
    color := "c"
    size := "s"
    excerpt := ""
    content := "old words"
    markdown_content := ""
    media_files := ""
    created_at := 3
    updated_at := 3
    read_time := "1 min read" }

/-- A concrete store holding `row_w`. -/
def db_w : DB := { cols := base_columns, rows := [row_w], nextId := 2 }

/-- The post that updating `db_w` with the concrete fields below returns. -/
def post_w : Post :=
  { id := 1
    title := "t2"
    category := "TIPS"
    color := "c2"
    size := "s2"
    excerpt := "e2"
    content := "one two three"
    media_files := ""
    created_at := 3
    read_time := "1 min read"
    markdown_content := "" }

/-- Witness for `read_time_stored`: a concrete update whose returned post
carries the recomputed read_time. -/
theorem read_time_stored_witness :
    (update_post db_w 9 1 "t2" "tips" "c2" "s2" "e2" "one two three" [] "").2 = some post_w ∧
    post_w.read_time = toString (max 1 ((pySplitWhitespace "one two three").length / 200)) ++ " min read" :=
  ⟨by decide,
   (read_time_stored db_w 9 1 "t2" "tips" "c2" "s2" "e2" "one two three" [] "").2.1 post_w (by decide)⟩

/-- Mapping the conditional `UPDATE` rewrite over rows none of which match
the id is the identity on the row list. -/
lemma map_if_id (l : List Row) (post_id : Nat) (f : Row → Row)
    (h : ∀ r ∈ l, r.id ≠ post_id) :
    (l.map fun r => if r.id == post_id then f r else r) = l := by
  have h2 : (l.map fun r => if r.id == post_id then f r else r) = l.map id :=
    List.map_congr_left (fun r hr => by simp [h r hr])
  simpa using h2

/-- C4: `update_post` on an id not present in the store returns absence and
leaves the store state entirely unchanged. -/
theorem update_nonexistent (db : DB) (now post_id : Nat)
    (title category color size excerpt content : String)
    (media_files : List String) (markdown_content : String)
    (habs : ∀ r ∈ db.rows, r.id ≠ post_id) :
    update_post db now post_id title category color size excerpt content media_files markdown_content = (db, none) := by
  have hfind : db.rows.find? (fun r => r.id == post_id) = none := by
    rw [List.find?_eq_none]
    intro r hr
    simpa using habs r hr
  simp only [update_post, get_post_by_id]
  rw [map_if_id db.rows post_id _ habs]
  simp [hfind]

/-- Witness for `update_nonexistent`: id 2 is absent from the one-row store
`db_w`. -/
theorem update_nonexistent_witness :
    update_post db_w 9 2 "t2" "tips" "c2" "s2" "e2" "x" [] "" = (db_w, none) :=
  update_nonexistent db_w 9 2 "t2" "tips" "c2" "s2" "e2" "x" [] "" (by decide)

/-- C5: `delete_post` returns true exactly when a row with the id exists, it
removes exactly the rows with that id, and a second delete of the same id
returns false (so a never-present id yields false). -/
theorem delete_semantics (db : DB) (post_id : Nat) :
    ((delete_post db post_id).2 = true ↔ ∃ r ∈ db.rows, r.id = post_id) ∧
    (delete_post (delete_post db post_id).1 post_id).2 = false ∧
    (delete_post db post_id).1.rows = db.rows.filter (fun r => !(r.id == post_id)) := by
  refine ⟨?_, ?_, rfl⟩
  · simp [delete_post, List.length_filter_lt_length_iff_exists]
  · simp only [delete_post]
    have hself : List.filter (fun r => !(r.id == post_id))
        (List.filter (fun r => !(r.id == post_id)) db.rows)
        = List.filter (fun r => !(r.id == post_id)) db.rows := by
      rw [List.filter_eq_self]
      intro a ha
      exact (List.mem_filter.mp ha).2
    simp only [hself]
    simp

/-- C7: the stored and the returned category is the upper-cased input
category, for both create and update; in particular creating a post with
category "tips" returns category "TIPS". -/
theorem category_normalized (db : DB) (now post_id : Nat)
    (title category color size excerpt content : String)
    (media_files : List String) (markdown_content : String) :
    ((create_post db now title category color size excerpt content media_files markdown_content).1.rows.getLast?).map Row.category
      = some (pyUpper category) ∧
    (∀ p : Post,
      (update_post db now post_id title category color size excerpt content media_files markdown_content).2 = some p →
      p.category = pyUpper category) ∧
    (create_post { cols := base_columns, rows := [], nextId := 1 } 0 "t" "tips" "c" "s" "" "x" [] "").2.map Post.category = some "TIPS" := by
  refine ⟨?_, ?_, by decide⟩
  · simp [create_post, List.getLast?_concat]
  · intro p hp
    exact (update_post_returns_updated db now post_id title category color size
      excerpt content media_files markdown_content p hp).2

/-- Witness for `category_normalized`: a concrete update whose returned post
carries the upper-cased category. -/
theorem category_normalized_witness :
    (update_post db_w 9 1 "t2" "tips" "c2" "s2" "e2" "one two three" [] "").2 = some post_w ∧
    post_w.category = pyUpper "tips" :=
  ⟨by decide,
   (category_normalized db_w 9 1 "t2" "tips" "c2" "s2" "e2" "one two three" [] "").2.1 post_w (by decide)⟩

/-- C6: `get_all_posts` returns the store sorted by `created_at` descending,
and it is a permutation of all rows converted to posts — nothing filtered,
nothing omitted. -/
theorem get_all_posts_sorted_complete (db : DB) :
    List.Sorted (fun a b : Post => b.created_at ≤ a.created_at) (get_all_posts db) ∧
    (get_all_posts db).Perm (db.rows.map row_to_post) := by
  constructor
  · show List.Pairwise _ _
    unfold get_all_posts
    rw [List.pairwise_map]
    have h := @List.sorted_mergeSort Row
      (fun a b : Row => decide (b.created_at ≤ a.created_at))
      (fun a b c hab hbc => by
        simp only [decide_eq_true_eq] at hab hbc ⊢
        omega)
      (fun a b => by simp [Nat.le_total])
      db.rows
    exact h.imp (fun hab => by simpa [row_to_post] using hab)
  · unfold get_all_posts
    exact (List.mergeSort_perm db.rows _).map row_to_post

/-- C3 counterexample: the claim fails at the blank input " ".  The guard in
`render_markdown` is Python falsiness, which holds only for the empty
string, so a whitespace-only non-empty input is handed to the markdown
converter; the repository places no constraint forcing that output to be
empty (the actual markdown2 library returns a newline here). -/
theorem render_markdown_blank_not_guarded :
    ¬ ∀ convert : String → String, render_markdown convert " " = "" := by
  intro h
  exact absurd (h (fun _ => "x")) (by decide)

/-- C3 (amended): `render_markdown` maps the empty input string to the empty
output; every non-empty input, whitespace-only included, is passed to the
markdown converter unchanged. -/
theorem render_markdown_empty_guard (convert : String → String) (text : String)
    (h : text ≠ "") :
    render_markdown convert "" = "" ∧ render_markdown convert text = convert text := by
  refine ⟨rfl, ?_⟩
  simp [render_markdown, h]

/-- Witness for `render_markdown_empty_guard` at a blank non-empty input. -/
theorem render_markdown_empty_guard_witness :
    (" " ≠ "") ∧ (render_markdown id "" = "" ∧ render_markdown id " " = id " ") :=
  ⟨by decide, render_markdown_empty_guard id " " (by decide)⟩

/-- A row used to show reads forget `updated_at`. -/
def row_u1 : Row :=
  { id := 1
    title := "t"
    category := "C"
    color := "c"
    size := "s"
    excerpt := ""
    content := "x"
    markdown_content := ""
    media_files := ""
    created_at := 10
    updated_at := 10
    read_time := "1 min read" }

/-- `row_u1` with a different `updated_at`. -/
def row_u2 : Row := { row_u1 with updated_at := 99 }

/-- C8 counterexample: post records produced by the store's read operations
include no `updated_at` value: two stores whose single rows differ only in
`updated_at` are indistinguishable through `get_post_by_id` (the `Post`
dataclass of src/models.py has no `updated_at` field). -/
theorem post_records_lack_updated_at :
    row_u1.updated_at ≠ row_u2.updated_at ∧
    get_post_by_id { cols := base_columns, rows := [row_u1], nextId := 2 } 1
      = get_post_by_id { cols := base_columns, rows := [row_u2], nextId := 2 } 1 := by
  decide

/-- C8 (amended): the read-side records omit `updated_at`; the store itself
keeps an `updated_at` column that every update stamps with the current
timestamp, so it advances whenever the clock has advanced since the row was
last written. -/
theorem updated_at_stamped (db : DB) (now post_id : Nat)
    (title category color size excerpt content : String)
    (media_files : List String) (markdown_content : String)
    (r : Row) (hmem : r ∈ db.rows) (hid : r.id = post_id) :
    ∃ r', r' ∈ (update_post db now post_id title category color size excerpt content media_files markdown_content).1.rows ∧
      r'.id = post_id ∧ r'.updated_at = now ∧
      (r.updated_at ≤ now → r.updated_at ≤ r'.updated_at) := by
  simp only [update_post]
  refine ⟨_, List.mem_map_of_mem _ hmem, ?_, ?_, ?_⟩ <;> simp [hid]

/-- Witness for `updated_at_stamped` on the concrete store `db_w`. -/
theorem updated_at_stamped_witness :
    (row_w ∈ db_w.rows) ∧ (row_w.id = 1) ∧
    ∃ r', r' ∈ (update_post db_w 9 1 "t2" "tips" "c2" "s2" "e2" "one two three" [] "").1.rows ∧
      r'.id = 1 ∧ r'.updated_at = 9 ∧
      (row_w.updated_at ≤ 9 → row_w.updated_at ≤ r'.updated_at) :=
  ⟨by decide, by decide,
   updated_at_stamped db_w 9 1 "t2" "tips" "c2" "s2" "e2" "one two three" [] "" row_w (by decide) (by decide)⟩

/-- A column migration step never touches the rows. -/
lemma add_column_rows (db : DB) (c : String) :
    (add_column_if_missing db c).rows = db.rows := by
  unfold add_column_if_missing
  split <;> rfl

/-- After `add_column_if_missing db c` the column `c` is present. -/
lemma add_column_mem_self (db : DB) (c : String) :
    c ∈ (add_column_if_missing db c).cols := by
  unfold add_column_if_missing
  split
  · assumption
  · simp

/-- A column migration step preserves the columns already present. -/
lemma add_column_mem_mono (db : DB) (c x : String) (h : x ∈ db.cols) :
    x ∈ (add_column_if_missing db c).cols := by
  unfold add_column_if_missing
  split
  · exact h
  · simp [h]

/-- Adding an already-present column is a no-op, not an error. -/
lemma add_column_of_mem (db : DB) (c : String) (h : c ∈ db.cols) :
    add_column_if_missing db c = db := by
  unfold add_column_if_missing
  rw [if_pos h]

/-- Seeding inserts exactly the three demonstration posts. -/
lemma insert_sample_posts_rows_length (db : DB) (now : Nat) :
    (insert_sample_posts db now).rows.length = db.rows.length + 3 := by
  simp [insert_sample_posts, sample_posts, insert_sample_row]

/-- Seeding never changes the columns. -/
lemma insert_sample_posts_cols (db : DB) (now : Nat) :
    (insert_sample_posts db now).cols = db.cols := by
  simp [insert_sample_posts, sample_posts, insert_sample_row]

/-- C9: `init_db` is idempotent — a second run on an already-initialized
store is a no-op: adding an already-present column does nothing, and the
demonstration posts are seeded only into a table with zero rows, so they are
never duplicated and existing rows are never changed. -/
theorem init_db_idempotent (db? : Option DB) (now now' : Nat) :
    init_db (some (init_db db? now)) now' = init_db db? now := by
  have hcols : (init_db db? now).cols
      = (add_column_if_missing (add_column_if_missing (create_table_if_not_exists db?) "markdown_content") "updated_at").cols := by
    simp only [init_db]
    split
    · exact insert_sample_posts_cols _ _
    · rfl
  have hmc : "markdown_content" ∈ (init_db db? now).cols := by
    rw [hcols]
    exact add_column_mem_mono _ _ _ (add_column_mem_self _ _)
  have hua : "updated_at" ∈ (init_db db? now).cols := by
    rw [hcols]
    exact add_column_mem_self _ _
  have hlen : (init_db db? now).rows.length ≠ 0 := by
    simp only [init_db]
    split
    · rw [insert_sample_posts_rows_length]
      omega
    · next h =>
      rw [add_column_rows, add_column_rows] at h ⊢
      simpa using h
  generalize init_db db? now = d at hmc hua hlen ⊢
  simp only [init_db, create_table_if_not_exists]
  rw [add_column_of_mem _ _ hmc, add_column_of_mem _ _ hua]
  simp [hlen]

/-- The head of a non-empty `dropWhile p` result never satisfies `p`. -/
lemma dropWhile_eq_cons_head_false {α : Type} {p : α → Bool} {l : List α}
    {c : α} {rest : List α} (h : l.dropWhile p = c :: rest) : p c = false := by
  have hne : l.dropWhile p ≠ [] := by simp [h]
  have h2 := List.head_dropWhile_not p l hne
  rwa [show (l.dropWhile p).head hne = c from by simp only [h, List.head_cons]] at h2

/-- The output of `pyStrip` never ends in a whitespace character. -/
lemma pyStrip_last_not_ws {s : String} {c : Char}
    (h : (pyStrip s).data.getLast? = some c) : c.isWhitespace = false := by
  unfold pyStrip at h
  simp only [List.rdropWhile] at h
  rw [List.getLast?_reverse] at h
  cases hd : List.dropWhile Char.isWhitespace (List.dropWhile Char.isWhitespace s.data).reverse with
  | nil =>
    rw [hd] at h
    simp at h
  | cons a rest =>
    rw [hd] at h
    simp only [List.head?_cons, Option.some.injEq] at h
    subst h
    exact dropWhile_eq_cons_head_false hd

/-- The output of `pyStrip` never starts with a whitespace character. -/
lemma pyStrip_head_not_ws {s : String} {c : Char}
    (h : (pyStrip s).data.head? = some c) : c.isWhitespace = false := by
  unfold pyStrip at h
  simp only [List.rdropWhile] at h
  rw [List.head?_reverse] at h
  have hmne : List.dropWhile Char.isWhitespace (List.dropWhile Char.isWhitespace s.data).reverse ≠ [] := by
    intro hnil
    rw [hnil] at h
    simp at h
  obtain ⟨t, ht⟩ := @List.dropWhile_suffix Char (List.dropWhile Char.isWhitespace s.data).reverse Char.isWhitespace
  have hlast : (List.dropWhile Char.isWhitespace s.data).reverse.getLast? = some c := by
    rw [← ht, List.getLast?_append_of_ne_nil t hmne]
    exact h
  rw [List.getLast?_reverse] at hlast
  cases hd : List.dropWhile Char.isWhitespace s.data with
  | nil =>
    rw [hd] at hlast
    simp at hlast
  | cons a rest =>
    rw [hd] at hlast
    simp only [List.head?_cons, Option.some.injEq] at hlast
    subst hlast
    exact dropWhile_eq_cons_head_false hd

/-- C10: `get_media_list` yields the empty list for an empty persisted
string, and otherwise a list containing no empty strings and no entries with
leading or trailing whitespace. -/
theorem get_media_list_clean (p : Post) :
    (p.media_files = "" → p.get_media_list = []) ∧
    (∀ e ∈ p.get_media_list, e ≠ "" ∧
      (∀ c, e.data.head? = some c → c.isWhitespace = false) ∧
      (∀ c, e.data.getLast? = some c → c.isWhitespace = false)) := by
  constructor
  · intro h
    simp [Post.get_media_list, h]
  · intro e he
    by_cases hm : p.media_files = ""
    · simp only [Post.get_media_list, if_pos hm] at he
      simp at he
    · simp only [Post.get_media_list, if_neg hm] at he
      rw [List.mem_filter] at he
      obtain ⟨hmap, hne⟩ := he
      rw [List.mem_map] at hmap
      obtain ⟨x, hx, hxe⟩ := hmap
      subst hxe
      refine ⟨by simpa using hne, ?_, ?_⟩
      · intro c hc
        exact pyStrip_head_not_ws hc
      · intro c hc
        exact pyStrip_last_not_ws hc

/-- A concrete post whose persisted media string has blanks and an empty
piece. -/
def post_m : Post :=
  { id := 1
    title := "t"
    category := "C"
    color := "c"
    size := "s"
    excerpt := ""
    content := "x"
    media_files := " a.jpg , ,b.mp4 "
    created_at := 0
    read_time := "1 min read"
    markdown_content := "" }

/-- Witness for `get_media_list_clean` on `post_m` and the entry "a.jpg". -/
theorem get_media_list_clean_witness :
    ({ post_m with media_files := "" } : Post).get_media_list = [] ∧
    ("a.jpg" ∈ post_m.get_media_list) ∧ "a.jpg" ≠ "" ∧
    ("a.jpg".data.head? = some (Char.ofNat 97) ∧ (Char.ofNat 97).isWhitespace = false) ∧
    ("a.jpg".data.getLast? = some (Char.ofNat 103) ∧ (Char.ofNat 103).isWhitespace = false) :=
  ⟨(get_media_list_clean { post_m with media_files := "" }).1 rfl,
   by decide,
   ((get_media_list_clean post_m).2 "a.jpg" (by decide)).1,
   ⟨by decide, ((get_media_list_clean post_m).2 "a.jpg" (by decide)).2.1 (Char.ofNat 97) (by decide)⟩,
   ⟨by decide, ((get_media_list_clean post_m).2 "a.jpg" (by decide)).2.2 (Char.ofNat 103) (by decide)⟩⟩

end NeonBlog
